import Mathlib

/-!
Verification of the diagnostic core of quick-lint-js: the byte-stream event
loop (`event_loop` in event-loop.h) and the diagnostic taxonomy with its
reporter interface (`QLJS_X_ERROR_TYPES` and `null_error_reporter` in
quick-lint-js/error.h).

The event loop is modelled in its POSIX configuration
(`QLJS_HAVE_POLL`, `QLJS_EVENT_LOOP_READ_PIPE_NON_BLOCKING = 1`): the pipe is
non-blocking, and each iteration that does not observe end-of-stream blocks in
`poll` with an infinite timeout before the next read.  The pipe is modelled as
the finite sequence of results its successive `read` calls produce; `poll` is
modelled as always reporting readability (readiness is implied by the queued
read results; `poll` failures and `POLLERR` are not modelled).
`QLJS_UNIMPLEMENTED()` and a failed `QLJS_ASSERT` terminate the process, which
the model records as an aborting outcome.
-/

namespace quick_lint_js

/-- The errno classification used by `event_loop::read_from_pipe`: the code
distinguishes only `errno == EAGAIN` (retryable) from every other error. -/
inductive read_errno
  | eagain
  | other
deriving DecidableEq

/-- One result of `platform_file_ref::read` as used by
`event_loop::read_from_pipe` (the struct itself lives in file-handle.h;
its fields are taken from their use in event-loop.h): `at_end_of_file`,
`error_message.has_value()`, and the bytes read (`data` stands for the
`bytes_read`-byte chunk placed in the 1024-byte buffer). -/
structure file_read_result where
  at_end_of_file : Bool
  error_message : Option read_errno
  data : String
deriving DecidableEq

/-- Observable events of one `run()` call, in order: a `read` is one call of
`pipe.read`; `append c` is one call of `append` on the delegate with chunk `c`;
`wait` is one `poll` readiness wait; `fatal` is `QLJS_UNIMPLEMENTED()`;
`assert_failed` is a failure of `QLJS_ASSERT(read_result.bytes_read != 0)`. -/
inductive event
  | read
  | append (chunk : String)
  | wait
  | fatal
  | assert_failed
deriving DecidableEq

/-- How a `run()` call ends: `finished` is a normal return (after
end-of-stream); `fatal_error` is process termination via
`QLJS_UNIMPLEMENTED()`; `assertion_failed` is process termination via a failed
`QLJS_ASSERT`; `blocked` means the source never produces another read result,
so the loop waits forever. -/
inductive run_outcome
  | finished
  | fatal_error
  | assertion_failed
  | blocked
deriving DecidableEq

/-- The effect of one `event_loop::read_from_pipe` call: the new value of the
`done_` member, the events it performed, and whether it aborted the process. -/
structure read_step where
  done_ : Bool
  events : List event
  abort : Option run_outcome
deriving DecidableEq

/-- `event_loop::read_from_pipe` (event-loop.h): read once from the pipe;
on `at_end_of_file` set `done_`; on an error, return if `errno == EAGAIN`
(non-blocking mode), otherwise `QLJS_UNIMPLEMENTED()`; otherwise assert the
read was non-empty and forward the chunk to `derived().append`. -/
def read_from_pipe (done_ : Bool) (r : file_read_result) : read_step :=
  if r.at_end_of_file then
    ⟨true, [event.read], none⟩
  else
    match r.error_message with
    | some read_errno.eagain => ⟨done_, [event.read], none⟩
    | some read_errno.other =>
        ⟨done_, [event.read, event.fatal], some run_outcome.fatal_error⟩
    | none =>
        if r.data = "" then
          ⟨done_, [event.read, event.assert_failed],
            some run_outcome.assertion_failed⟩
        else
          ⟨done_, [event.read, event.append r.data], none⟩

/-- The result of a `run()` call: the events performed in order, how the call
ended, the final value of the `done_` member, and the read results the pipe
still holds (reads the loop never consumed). -/
structure run_result where
  trace : List event
  outcome : run_outcome
  done_ : Bool
  rest : List file_read_result
deriving DecidableEq

/-- `event_loop::run` (event-loop.h): `while (!done_) { read_from_pipe();
if (done_) break; poll(...); }`, modelled over the queued read
results.  Each iteration that neither finishes nor aborts ends with the
`poll` readiness wait (`event.wait`) before looping back to the next read. -/
def run (done_ : Bool) (reads : List file_read_result) : run_result :=
  if done_ then ⟨[], run_outcome.finished, done_, reads⟩
  else
    match reads with
    | [] => ⟨[], run_outcome.blocked, done_, []⟩
    | r :: rest =>
      let step := read_from_pipe done_ r
      match step.abort with
      | some oc => ⟨step.events, oc, step.done_, rest⟩
      | none =>
        if step.done_ then ⟨step.events, run_outcome.finished, step.done_, rest⟩
        else
          let next := run step.done_ rest
          ⟨step.events ++ event.wait :: next.trace, next.outcome, next.done_,
            next.rest⟩

/-- The chunks a trace delivers to the delegate, in order. -/
def appended_chunks (trace : List event) : List String :=
  trace.filterMap fun e =>
    match e with
    | event.append s => some s
    | _ => none

/-- A read result on which one loop iteration neither stops nor aborts:
not end-of-stream, and either the retryable `EAGAIN` condition or a
successful non-empty read. -/
def makes_progress (r : file_read_result) : Bool :=
  !r.at_end_of_file &&
    (match r.error_message with
     | some read_errno.eagain => true
     | some read_errno.other => false
     | none => !(r.data = ""))

/-- The chunks a read sequence carries: the data of each successful
non-empty, non-end-of-stream read, in order (exactly the reads whose chunk
`read_from_pipe` forwards to `append`). -/
def chunks (reads : List file_read_result) : List String :=
  reads.filterMap fun r =>
    if r.at_end_of_file then none
    else
      match r.error_message with
      | some _ => none
      | none => if r.data = "" then none else some r.data

/-- The read sequence eventually reports end-of-stream, every read before
that first report making progress. -/
def stops_at_eof (reads : List file_read_result) : Prop :=
  ∃ pre r post, reads = pre ++ r :: post ∧ r.at_end_of_file = true ∧
    ∀ x ∈ pre, makes_progress x = true

/-- A successful read of chunk `s`. -/
def data_read (s : String) : file_read_result := ⟨false, none, s⟩

/-- A read reporting end-of-stream. -/
def eof_read : file_read_result := ⟨true, none, ""⟩

/-- A read failing with the retryable `EAGAIN` condition. -/
def eagain_read : file_read_result := ⟨false, some read_errno.eagain, ""⟩

/-- A read failing with an error other than `EAGAIN`. -/
def fatal_read : file_read_result := ⟨false, some read_errno.other, ""⟩


/-- The type of one field of a diagnostic kind, as declared in that kind in
the struct body in `QLJS_X_ERROR_TYPES` (error.h).  `source_code_span`,
`identifier`, `char8` and the two enums are declared in headers outside this
subsystem (location.h, lex.h, language.h, char8.h). -/
inductive field_type
  | source_code_span
  | identifier
  | char8
  | statement_kind
  | variable_kind
deriving DecidableEq

/-- One field declaration of the struct body of a diagnostic kind. -/
structure field_decl where
  type : field_type
  name : String
deriving DecidableEq

/-- One interpolation argument of an `.error`/`.warning`/`.note` call in
`QLJS_X_ERROR_TYPES`: a declared field referenced directly, a span built from
two declared fields (`source_code_span(a.begin(), b.end())`), or a one-byte
view of a declared `char8` field (`string8_view(&f, 1)`). -/
inductive message_arg
  | field (name : String)
  | span_between (first last : String)
  | char_view (name : String)
deriving DecidableEq

/-- Which builder call of the format chain of a kind a message comes from:
`.error(...)` and `.warning(...)` are primary messages, `.note(...)` is a
secondary note. -/
inductive message_kind
  | error
  | warning
  | note
deriving DecidableEq

/-- One `.error`/`.warning`/`.note` call of the format chain of a kind: the
builder used, the `QLJS_TRANSLATABLE` message text, and the interpolation
arguments in order. -/
structure diagnostic_message where
  kind : message_kind
  message : String
  args : List message_arg
deriving DecidableEq

/-- One `QLJS_ERROR_TYPE(name, code, struct_body, format_call)` entry of
`QLJS_X_ERROR_TYPES`: the struct name of the kind, its short code, its declared
fields, and its format chain. -/
structure error_type where
  name : String
  code : String
  fields : List field_decl
  format : List diagnostic_message
deriving DecidableEq

/-- Entries 1-20 of the `QLJS_X_ERROR_TYPES` table of error.h, in
declaration order (the table is split into segments of twenty entries only to
keep elaboration fast; their concatenation below is the whole table). -/
def QLJS_X_ERROR_TYPES_1 : List error_type := [
  ⟨"error_assignment_before_variable_declaration", "E001",
    [⟨field_type.identifier, "assignment"⟩, ⟨field_type.identifier, "declaration"⟩],
    [⟨message_kind.error, "variable assigned before its declaration", [message_arg.field "assignment"]⟩,
     ⟨message_kind.note, "variable declared here", [message_arg.field "declaration"]⟩]⟩,
  ⟨"error_assignment_to_const_global_variable", "E002",
    [⟨field_type.identifier, "assignment"⟩],
    [⟨message_kind.error, "assignment to const global variable", [message_arg.field "assignment"]⟩]⟩,
  ⟨"error_assignment_to_const_variable", "E003",
    [⟨field_type.identifier, "declaration"⟩, ⟨field_type.identifier, "assignment"⟩, ⟨field_type.variable_kind, "var_kind"⟩],
    [⟨message_kind.error, "assignment to const variable", [message_arg.field "assignment"]⟩,
     ⟨message_kind.note, "const variable declared here", [message_arg.field "declaration"]⟩]⟩,
  ⟨"error_assignment_to_const_variable_before_its_declaration", "E004",
    [⟨field_type.identifier, "declaration"⟩, ⟨field_type.identifier, "assignment"⟩, ⟨field_type.variable_kind, "var_kind"⟩],
    [⟨message_kind.error, "assignment to const variable before its declaration", [message_arg.field "assignment"]⟩,
     ⟨message_kind.note, "const variable declared here", [message_arg.field "declaration"]⟩]⟩,
  ⟨"error_assignment_to_undeclared_variable", "E059",
    [⟨field_type.identifier, "assignment"⟩],
    [⟨message_kind.warning, "assignment to undeclared variable", [message_arg.field "assignment"]⟩]⟩,
  ⟨"error_await_operator_outside_async", "E162",
    [⟨field_type.source_code_span, "await_operator"⟩],
    [⟨message_kind.error, "\x27await\x27 is only allowed in async functions", [message_arg.field "await_operator"]⟩]⟩,
  ⟨"error_big_int_literal_contains_decimal_point", "E005",
    [⟨field_type.source_code_span, "where"⟩],
    [⟨message_kind.error, "BigInt literal contains decimal point", [message_arg.field "where"]⟩]⟩,
  ⟨"error_big_int_literal_contains_exponent", "E006",
    [⟨field_type.source_code_span, "where"⟩],
    [⟨message_kind.error, "BigInt literal contains exponent", [message_arg.field "where"]⟩]⟩,
  ⟨"error_c_style_for_loop_is_missing_third_component", "E093",
    [⟨field_type.source_code_span, "expected_last_component"⟩, ⟨field_type.source_code_span, "existing_semicolon"⟩],
    [⟨message_kind.error, "C-style for loop is missing its third component", [message_arg.field "expected_last_component"]⟩]⟩,
  ⟨"error_cannot_assign_to_variable_named_async_in_for_of_loop", "E082",
    [⟨field_type.identifier, "async_identifier"⟩],
    [⟨message_kind.error, "assigning to \x27async\x27 in a for-of loop requires parentheses", [message_arg.field "async_identifier"]⟩]⟩,
  ⟨"error_cannot_declare_await_in_async_function", "E069",
    [⟨field_type.identifier, "name"⟩],
    [⟨message_kind.error, "cannot declare \x27await\x27 inside async function", [message_arg.field "name"]⟩]⟩,
  ⟨"error_cannot_declare_class_named_let", "E007",
    [⟨field_type.source_code_span, "name"⟩],
    [⟨message_kind.error, "classes cannot be named \x27let\x27", [message_arg.field "name"]⟩]⟩,
  ⟨"error_cannot_declare_variable_named_let_with_let", "E008",
    [⟨field_type.source_code_span, "name"⟩],
    [⟨message_kind.error, "let statement cannot declare variables named \x27let\x27", [message_arg.field "name"]⟩]⟩,
  ⟨"error_cannot_declare_variable_with_keyword_name", "E124",
    [⟨field_type.source_code_span, "keyword"⟩],
    [⟨message_kind.error, "cannot declare variable named keyword \x27\x7b0\x7d\x27", [message_arg.field "keyword"]⟩]⟩,
  ⟨"error_cannot_declare_yield_in_generator_function", "E071",
    [⟨field_type.identifier, "name"⟩],
    [⟨message_kind.error, "cannot declare \x27yield\x27 inside generator function", [message_arg.field "name"]⟩]⟩,
  ⟨"error_cannot_export_default_variable", "E076",
    [⟨field_type.source_code_span, "declaring_token"⟩],
    [⟨message_kind.error, "cannot declare and export variable with \x27export default\x27", [message_arg.field "declaring_token"]⟩]⟩,
  ⟨"error_cannot_export_let", "E009",
    [⟨field_type.source_code_span, "export_name"⟩],
    [⟨message_kind.error, "cannot export variable named \x27let\x27", [message_arg.field "export_name"]⟩]⟩,
  ⟨"error_cannot_export_variable_named_keyword", "E144",
    [⟨field_type.identifier, "export_name"⟩],
    [⟨message_kind.error, "cannot export variable named keyword \x27\x7b0\x7d\x27", [message_arg.field "export_name"]⟩]⟩,
  ⟨"error_cannot_import_let", "E010",
    [⟨field_type.source_code_span, "import_name"⟩],
    [⟨message_kind.error, "cannot import \x27let\x27", [message_arg.field "import_name"]⟩]⟩,
  ⟨"error_cannot_import_variable_named_keyword", "E145",
    [⟨field_type.identifier, "import_name"⟩],
    [⟨message_kind.error, "cannot import variable named keyword \x27\x7b0\x7d\x27", [message_arg.field "import_name"]⟩]⟩]

/-- Entries 21-40 of the `QLJS_X_ERROR_TYPES` table of error.h, in
declaration order (the table is split into segments of twenty entries only to
keep elaboration fast; their concatenation below is the whole table). -/
def QLJS_X_ERROR_TYPES_2 : List error_type := [
  ⟨"error_cannot_refer_to_private_variable_without_object", "E155",
    [⟨field_type.identifier, "private_identifier"⟩],
    [⟨message_kind.error, "cannot reference private variables without object; use \x27this.\x27", [message_arg.field "private_identifier"]⟩]⟩,
  ⟨"error_cannot_update_variable_during_declaration", "E136",
    [⟨field_type.source_code_span, "declaring_token"⟩, ⟨field_type.source_code_span, "updating_operator"⟩],
    [⟨message_kind.error, "cannot update variable with \x27\x7b0\x7d\x27 while declaring it", [message_arg.field "updating_operator"]⟩,
     ⟨message_kind.note, "remove \x27\x7b0\x7d\x27 to update an existing variable", [message_arg.field "declaring_token"]⟩]⟩,
  ⟨"error_catch_without_try", "E117",
    [⟨field_type.source_code_span, "catch_token"⟩],
    [⟨message_kind.error, "unexpected \x27catch\x27 without \x27try\x27", [message_arg.field "catch_token"]⟩]⟩,
  ⟨"error_class_statement_not_allowed_in_body", "E149",
    [⟨field_type.statement_kind, "kind_of_statement"⟩, ⟨field_type.source_code_span, "expected_body"⟩, ⟨field_type.source_code_span, "class_keyword"⟩],
    [⟨message_kind.error, "missing body for \x7b1:headlinese\x7d", [message_arg.field "expected_body", message_arg.field "kind_of_statement"]⟩,
     ⟨message_kind.note, "a class statement is not allowed as the body of \x7b1:singular\x7d", [message_arg.field "class_keyword", message_arg.field "kind_of_statement"]⟩]⟩,
  ⟨"error_character_disallowed_in_identifiers", "E011",
    [⟨field_type.source_code_span, "character"⟩],
    [⟨message_kind.error, "character is not allowed in identifiers", [message_arg.field "character"]⟩]⟩,
  ⟨"error_comma_not_allowed_after_spread_parameter", "E070",
    [⟨field_type.source_code_span, "comma"⟩, ⟨field_type.source_code_span, "spread"⟩],
    [⟨message_kind.error, "commas are not allowed after spread parameter", [message_arg.field "comma"]⟩]⟩,
  ⟨"error_else_has_no_if", "E065",
    [⟨field_type.source_code_span, "else_token"⟩],
    [⟨message_kind.error, "\x27else\x27 has no corresponding \x27if\x27", [message_arg.field "else_token"]⟩]⟩,
  ⟨"error_escaped_character_disallowed_in_identifiers", "E012",
    [⟨field_type.source_code_span, "escape_sequence"⟩],
    [⟨message_kind.error, "escaped character is not allowed in identifiers", [message_arg.field "escape_sequence"]⟩]⟩,
  ⟨"error_escaped_code_point_in_identifier_out_of_range", "E013",
    [⟨field_type.source_code_span, "escape_sequence"⟩],
    [⟨message_kind.error, "code point out of range", [message_arg.field "escape_sequence"]⟩]⟩,
  ⟨"error_extra_comma_not_allowed_between_arguments", "E068",
    [⟨field_type.source_code_span, "comma"⟩],
    [⟨message_kind.error, "extra \x27,\x27 is not allowed between function call arguments", [message_arg.field "comma"]⟩]⟩,
  ⟨"error_expected_as_before_imported_namespace_alias", "E126",
    [⟨field_type.source_code_span, "alias"⟩, ⟨field_type.source_code_span, "star_token"⟩],
    [⟨message_kind.error, "expected \x27as\x27 between \x27\x7b1\x7d\x27 and \x27\x7b2\x7d\x27", [message_arg.span_between "star_token" "alias", message_arg.field "star_token", message_arg.field "alias"]⟩]⟩,
  ⟨"error_expected_comma_to_separate_object_literal_entries", "E131",
    [⟨field_type.source_code_span, "unexpected_token"⟩],
    [⟨message_kind.error, "expected \x27,\x27 between object literal entries", [message_arg.field "unexpected_token"]⟩]⟩,
  ⟨"error_expected_expression_before_newline", "E014",
    [⟨field_type.source_code_span, "where"⟩],
    [⟨message_kind.error, "expected expression before newline", [message_arg.field "where"]⟩]⟩,
  ⟨"error_expected_expression_for_switch_case", "E140",
    [⟨field_type.source_code_span, "case_token"⟩],
    [⟨message_kind.error, "expected expression after \x27case\x27", [message_arg.field "case_token"]⟩]⟩,
  ⟨"error_expected_expression_before_semicolon", "E015",
    [⟨field_type.source_code_span, "where"⟩],
    [⟨message_kind.error, "expected expression before semicolon", [message_arg.field "where"]⟩]⟩,
  ⟨"error_expected_from_and_module_specifier", "E129",
    [⟨field_type.source_code_span, "where"⟩],
    [⟨message_kind.error, "expected \x27from \"name_of_module.mjs\"\x27", [message_arg.field "where"]⟩]⟩,
  ⟨"error_expected_from_before_module_specifier", "E128",
    [⟨field_type.source_code_span, "module_specifier"⟩],
    [⟨message_kind.error, "expected \x27from\x27 before module specifier", [message_arg.field "module_specifier"]⟩]⟩,
  ⟨"error_expected_hex_digits_in_unicode_escape", "E016",
    [⟨field_type.source_code_span, "escape_sequence"⟩],
    [⟨message_kind.error, "expected hexadecimal digits in Unicode escape sequence", [message_arg.field "escape_sequence"]⟩]⟩,
  ⟨"error_expected_left_curly", "E107",
    [⟨field_type.source_code_span, "expected_left_curly"⟩],
    [⟨message_kind.error, "expected \x27\x7b\x7b\x27", [message_arg.field "expected_left_curly"]⟩]⟩,
  ⟨"error_expected_right_paren_for_function_call", "E141",
    [⟨field_type.source_code_span, "expected_right_paren"⟩, ⟨field_type.source_code_span, "left_paren"⟩],
    [⟨message_kind.error, "expected \x27)\x27 to close function call", [message_arg.field "expected_right_paren"]⟩,
     ⟨message_kind.note, "function call started here", [message_arg.field "left_paren"]⟩]⟩]

/-- Entries 41-60 of the `QLJS_X_ERROR_TYPES` table of error.h, in
declaration order (the table is split into segments of twenty entries only to
keep elaboration fast; their concatenation below is the whole table). -/
def QLJS_X_ERROR_TYPES_3 : List error_type := [
  ⟨"error_expected_parentheses_around_do_while_condition", "E084",
    [⟨field_type.source_code_span, "condition"⟩],
    [⟨message_kind.error, "do-while loop needs parentheses around condition", [message_arg.field "condition"]⟩]⟩,
  ⟨"error_expected_parenthesis_around_do_while_condition", "E085",
    [⟨field_type.source_code_span, "where"⟩, ⟨field_type.char8, "token"⟩],
    [⟨message_kind.error, "do-while loop is missing \x27\x7b1\x7d\x27 around condition", [message_arg.field "where", message_arg.char_view "token"]⟩]⟩,
  ⟨"error_expected_parentheses_around_if_condition", "E017",
    [⟨field_type.source_code_span, "condition"⟩],
    [⟨message_kind.error, "if statement needs parentheses around condition", [message_arg.field "condition"]⟩]⟩,
  ⟨"error_expected_parenthesis_around_if_condition", "E018",
    [⟨field_type.source_code_span, "where"⟩, ⟨field_type.char8, "token"⟩],
    [⟨message_kind.error, "if statement is missing \x27\x7b1\x7d\x27 around condition", [message_arg.field "where", message_arg.char_view "token"]⟩]⟩,
  ⟨"error_expected_parentheses_around_switch_condition", "E091",
    [⟨field_type.source_code_span, "condition"⟩],
    [⟨message_kind.error, "switch statement needs parentheses around condition", [message_arg.field "condition"]⟩]⟩,
  ⟨"error_expected_parenthesis_around_switch_condition", "E092",
    [⟨field_type.source_code_span, "where"⟩, ⟨field_type.char8, "token"⟩],
    [⟨message_kind.error, "switch statement is missing \x27\x7b1\x7d\x27 around condition", [message_arg.field "where", message_arg.char_view "token"]⟩]⟩,
  ⟨"error_expected_parentheses_around_while_condition", "E087",
    [⟨field_type.source_code_span, "condition"⟩],
    [⟨message_kind.error, "while loop needs parentheses around condition", [message_arg.field "condition"]⟩]⟩,
  ⟨"error_expected_parenthesis_around_while_condition", "E088",
    [⟨field_type.source_code_span, "where"⟩, ⟨field_type.char8, "token"⟩],
    [⟨message_kind.error, "while loop is missing \x27\x7b1\x7d\x27 around condition", [message_arg.field "where", message_arg.char_view "token"]⟩]⟩,
  ⟨"error_expected_parentheses_around_with_expression", "E089",
    [⟨field_type.source_code_span, "expression"⟩],
    [⟨message_kind.error, "with statement needs parentheses around expression", [message_arg.field "expression"]⟩]⟩,
  ⟨"error_expected_parenthesis_around_with_expression", "E090",
    [⟨field_type.source_code_span, "where"⟩, ⟨field_type.char8, "token"⟩],
    [⟨message_kind.error, "with statement is missing \x27\x7b1\x7d\x27 around expression", [message_arg.field "where", message_arg.char_view "token"]⟩]⟩,
  ⟨"error_expected_variable_name_for_catch", "E135",
    [⟨field_type.source_code_span, "unexpected_token"⟩],
    [⟨message_kind.error, "expected variable name for \x27catch\x27", [message_arg.field "unexpected_token"]⟩]⟩,
  ⟨"error_exporting_requires_default", "E067",
    [⟨field_type.source_code_span, "expression"⟩],
    [⟨message_kind.error, "exporting requires \x27default\x27", [message_arg.field "expression"]⟩]⟩,
  ⟨"error_exporting_requires_curlies", "E066",
    [⟨field_type.source_code_span, "names"⟩],
    [⟨message_kind.error, "exporting requires \x27\x7b\x7b\x27 and \x27\x7d\x27", [message_arg.field "names"]⟩]⟩,
  ⟨"error_exporting_string_name_only_allowed_for_export_from", "E153",
    [⟨field_type.source_code_span, "export_name"⟩],
    [⟨message_kind.error, "forwarding exports are only allowed in export-from", [message_arg.field "export_name"]⟩]⟩,
  ⟨"error_finally_without_try", "E118",
    [⟨field_type.source_code_span, "finally_token"⟩],
    [⟨message_kind.error, "unexpected \x27finally\x27 without \x27try\x27", [message_arg.field "finally_token"]⟩]⟩,
  ⟨"error_function_statement_not_allowed_in_body", "E148",
    [⟨field_type.statement_kind, "kind_of_statement"⟩, ⟨field_type.source_code_span, "expected_body"⟩, ⟨field_type.source_code_span, "function_keywords"⟩],
    [⟨message_kind.error, "missing body for \x7b1:headlinese\x7d", [message_arg.field "expected_body", message_arg.field "kind_of_statement"]⟩,
     ⟨message_kind.note, "a function statement is not allowed as the body of \x7b1:singular\x7d", [message_arg.field "function_keywords", message_arg.field "kind_of_statement"]⟩]⟩,
  ⟨"error_generator_function_star_belongs_before_name", "E133",
    [⟨field_type.source_code_span, "function_name"⟩, ⟨field_type.source_code_span, "star"⟩],
    [⟨message_kind.error, "generator function \x27*\x27 belongs before function name", [message_arg.field "star"]⟩]⟩,
  ⟨"error_in_disallowed_in_c_style_for_loop", "E108",
    [⟨field_type.source_code_span, "in_token"⟩],
    [⟨message_kind.error, "\x27in\x27 disallowed in C-style for loop initializer", [message_arg.field "in_token"]⟩]⟩,
  ⟨"error_indexing_requires_expression", "E075",
    [⟨field_type.source_code_span, "squares"⟩],
    [⟨message_kind.error, "indexing requires an expression", [message_arg.field "squares"]⟩]⟩,
  ⟨"error_invalid_binding_in_let_statement", "E019",
    [⟨field_type.source_code_span, "where"⟩],
    [⟨message_kind.error, "invalid binding in let statement", [message_arg.field "where"]⟩]⟩]

/-- Entries 61-80 of the `QLJS_X_ERROR_TYPES` table of error.h, in
declaration order (the table is split into segments of twenty entries only to
keep elaboration fast; their concatenation below is the whole table). -/
def QLJS_X_ERROR_TYPES_4 : List error_type := [
  ⟨"error_invalid_expression_left_of_assignment", "E020",
    [⟨field_type.source_code_span, "where"⟩],
    [⟨message_kind.error, "invalid expression left of assignment", [message_arg.field "where"]⟩]⟩,
  ⟨"error_invalid_hex_escape_sequence", "E060",
    [⟨field_type.source_code_span, "escape_sequence"⟩],
    [⟨message_kind.error, "invalid hex escape sequence: \x7b0\x7d", [message_arg.field "escape_sequence"]⟩]⟩,
  ⟨"error_invalid_lone_literal_in_object_literal", "E021",
    [⟨field_type.source_code_span, "where"⟩],
    [⟨message_kind.error, "invalid lone literal in object literal", [message_arg.field "where"]⟩]⟩,
  ⟨"error_invalid_rhs_for_dot_operator", "E074",
    [⟨field_type.source_code_span, "dot"⟩],
    [⟨message_kind.error, "\x27.\x27 operator needs a key name; use + to concatenate strings; use [] to access with a dynamic key", [message_arg.field "dot"]⟩]⟩,
  ⟨"error_invalid_utf_8_sequence", "E022",
    [⟨field_type.source_code_span, "sequence"⟩],
    [⟨message_kind.error, "invalid UTF-8 sequence", [message_arg.field "sequence"]⟩]⟩,
  ⟨"error_keywords_cannot_contain_escape_sequences", "E023",
    [⟨field_type.source_code_span, "escape_sequence"⟩],
    [⟨message_kind.error, "keywords cannot contain escape sequences", [message_arg.field "escape_sequence"]⟩]⟩,
  ⟨"error_legacy_octal_literal_may_not_be_big_int", "E032",
    [⟨field_type.source_code_span, "characters"⟩],
    [⟨message_kind.error, "legacy octal literal may not be BigInt", [message_arg.field "characters"]⟩]⟩,
  ⟨"error_legacy_octal_literal_may_not_contain_underscores", "E152",
    [⟨field_type.source_code_span, "underscores"⟩],
    [⟨message_kind.error, "legacy octal literals may not contain underscores", [message_arg.field "underscores"]⟩]⟩,
  ⟨"error_let_with_no_bindings", "E024",
    [⟨field_type.source_code_span, "where"⟩],
    [⟨message_kind.error, "let with no bindings", [message_arg.field "where"]⟩]⟩,
  ⟨"error_lexical_declaration_not_allowed_in_body", "E150",
    [⟨field_type.statement_kind, "kind_of_statement"⟩, ⟨field_type.source_code_span, "expected_body"⟩, ⟨field_type.source_code_span, "declaring_keyword"⟩],
    [⟨message_kind.error, "missing body for \x7b1:headlinese\x7d", [message_arg.field "expected_body", message_arg.field "kind_of_statement"]⟩,
     ⟨message_kind.note, "a lexical declaration is not allowed as the body of \x7b1:singular\x7d", [message_arg.field "declaring_keyword", message_arg.field "kind_of_statement"]⟩]⟩,
  ⟨"error_methods_should_not_use_function_keyword", "E072",
    [⟨field_type.source_code_span, "function_token"⟩],
    [⟨message_kind.error, "methods should not use the \x27function\x27 keyword", [message_arg.field "function_token"]⟩]⟩,
  ⟨"error_missing_array_close", "E157",
    [⟨field_type.source_code_span, "left_square"⟩, ⟨field_type.source_code_span, "expected_right_square"⟩],
    [⟨message_kind.error, "missing end of array; expected \x27]\x27", [message_arg.field "expected_right_square"]⟩,
     ⟨message_kind.note, "array started here", [message_arg.field "left_square"]⟩]⟩,
  ⟨"error_missing_arrow_function_parameter_list", "E105",
    [⟨field_type.source_code_span, "arrow"⟩],
    [⟨message_kind.error, "missing parameters for arrow function", [message_arg.field "arrow"]⟩]⟩,
  ⟨"error_missing_body_for_catch_clause", "E119",
    [⟨field_type.source_code_span, "catch_token"⟩],
    [⟨message_kind.error, "missing body for catch clause", [message_arg.field "catch_token"]⟩]⟩,
  ⟨"error_missing_body_for_class", "E111",
    [⟨field_type.source_code_span, "class_keyword_and_name_and_heritage"⟩],
    [⟨message_kind.error, "missing body for class", [message_arg.field "class_keyword_and_name_and_heritage"]⟩]⟩,
  ⟨"error_missing_body_for_do_while_statement", "E101",
    [⟨field_type.source_code_span, "do_token"⟩],
    [⟨message_kind.error, "missing body for do-while loop", [message_arg.field "do_token"]⟩]⟩,
  ⟨"error_missing_body_for_finally_clause", "E121",
    [⟨field_type.source_code_span, "finally_token"⟩],
    [⟨message_kind.error, "missing body for finally clause", [message_arg.field "finally_token"]⟩]⟩,
  ⟨"error_missing_body_for_for_statement", "E094",
    [⟨field_type.source_code_span, "for_and_header"⟩],
    [⟨message_kind.error, "missing body for \x27for\x27 loop", [message_arg.field "for_and_header"]⟩]⟩,
  ⟨"error_missing_body_for_if_statement", "E064",
    [⟨field_type.source_code_span, "if_and_condition"⟩],
    [⟨message_kind.error, "missing body for \x27if\x27 statement", [message_arg.field "if_and_condition"]⟩]⟩,
  ⟨"error_missing_body_for_switch_statement", "E106",
    [⟨field_type.source_code_span, "switch_and_condition"⟩],
    [⟨message_kind.error, "missing body for \x27switch\x27 statement", [message_arg.field "switch_and_condition"]⟩]⟩]

/-- Entries 81-100 of the `QLJS_X_ERROR_TYPES` table of error.h, in
declaration order (the table is split into segments of twenty entries only to
keep elaboration fast; their concatenation below is the whole table). -/
def QLJS_X_ERROR_TYPES_5 : List error_type := [
  ⟨"error_missing_body_for_try_statement", "E120",
    [⟨field_type.source_code_span, "try_token"⟩],
    [⟨message_kind.error, "missing body for try statement", [message_arg.field "try_token"]⟩]⟩,
  ⟨"error_missing_body_for_while_statement", "E104",
    [⟨field_type.source_code_span, "while_and_condition"⟩],
    [⟨message_kind.error, "missing body for while loop", [message_arg.field "while_and_condition"]⟩]⟩,
  ⟨"error_missing_catch_or_finally_for_try_statement", "E122",
    [⟨field_type.source_code_span, "expected_catch_or_finally"⟩, ⟨field_type.source_code_span, "try_token"⟩],
    [⟨message_kind.error, "missing catch or finally clause for try statement", [message_arg.field "expected_catch_or_finally"]⟩,
     ⟨message_kind.note, "try statement starts here", [message_arg.field "try_token"]⟩]⟩,
  ⟨"error_missing_catch_variable_between_parentheses", "E130",
    [⟨field_type.source_code_span, "left_paren"⟩, ⟨field_type.source_code_span, "right_paren"⟩],
    [⟨message_kind.error, "missing catch variable name between parentheses", [message_arg.span_between "left_paren" "right_paren"]⟩]⟩,
  ⟨"error_missing_comma_between_object_literal_entries", "E025",
    [⟨field_type.source_code_span, "where"⟩],
    [⟨message_kind.error, "missing comma between object literal entries", [message_arg.field "where"]⟩]⟩,
  ⟨"error_missing_comma_between_variable_declarations", "E132",
    [⟨field_type.source_code_span, "expected_comma"⟩],
    [⟨message_kind.error, "missing \x27,\x27 between variable declarations", [message_arg.field "expected_comma"]⟩]⟩,
  ⟨"error_missing_colon_in_conditional_expression", "E146",
    [⟨field_type.source_code_span, "expected_colon"⟩, ⟨field_type.source_code_span, "question"⟩],
    [⟨message_kind.error, "missing \x27:\x27 in conditional expression", [message_arg.field "expected_colon"]⟩,
     ⟨message_kind.note, "\x27?\x27 creates a conditional expression", [message_arg.field "question"]⟩]⟩,
  ⟨"error_missing_condition_for_if_statement", "E138",
    [⟨field_type.source_code_span, "if_keyword"⟩],
    [⟨message_kind.error, "missing condition for if statement", [message_arg.field "if_keyword"]⟩]⟩,
  ⟨"error_missing_condition_for_while_statement", "E139",
    [⟨field_type.source_code_span, "while_keyword"⟩],
    [⟨message_kind.error, "missing condition for while statement", [message_arg.field "while_keyword"]⟩]⟩,
  ⟨"error_missing_condition_for_switch_statement", "E137",
    [⟨field_type.source_code_span, "switch_keyword"⟩],
    [⟨message_kind.error, "missing condition for switch statement", [message_arg.field "switch_keyword"]⟩]⟩,
  ⟨"error_missing_expression_between_parentheses", "E078",
    [⟨field_type.source_code_span, "left_paren"⟩, ⟨field_type.source_code_span, "right_paren"⟩],
    [⟨message_kind.error, "missing expression between parentheses", [message_arg.span_between "left_paren" "right_paren"]⟩]⟩,
  ⟨"error_missing_for_loop_header", "E125",
    [⟨field_type.source_code_span, "for_token"⟩],
    [⟨message_kind.error, "missing header and body for \x27for\x27 loop", [message_arg.field "for_token"]⟩]⟩,
  ⟨"error_missing_for_loop_rhs_or_components_after_expression", "E097",
    [⟨field_type.source_code_span, "header"⟩, ⟨field_type.source_code_span, "for_token"⟩],
    [⟨message_kind.error, "for loop needs an iterable, or condition and update clauses", [message_arg.field "header"]⟩,
     ⟨message_kind.note, "use \x27while\x27 instead to loop until a condition is false", [message_arg.field "for_token"]⟩]⟩,
  ⟨"error_missing_for_loop_rhs_or_components_after_declaration", "E098",
    [⟨field_type.source_code_span, "header"⟩, ⟨field_type.source_code_span, "for_token"⟩],
    [⟨message_kind.error, "for loop needs an iterable, or condition and update clauses", [message_arg.field "header"]⟩]⟩,
  ⟨"error_missing_function_parameter_list", "E073",
    [⟨field_type.source_code_span, "function_name"⟩],
    [⟨message_kind.error, "missing function parameter list", [message_arg.field "function_name"]⟩]⟩,
  ⟨"error_missing_header_of_for_loop", "E096",
    [⟨field_type.source_code_span, "where"⟩],
    [⟨message_kind.error, "missing for loop header", [message_arg.field "where"]⟩]⟩,
  ⟨"error_missing_key_for_object_entry", "E154",
    [⟨field_type.source_code_span, "expression"⟩],
    [⟨message_kind.error, "unexpected expression; missing key for object entry", [message_arg.field "expression"]⟩]⟩,
  ⟨"error_missing_name_in_function_statement", "E061",
    [⟨field_type.source_code_span, "where"⟩],
    [⟨message_kind.error, "missing name in function statement", [message_arg.field "where"]⟩]⟩,
  ⟨"error_missing_name_in_class_statement", "E080",
    [⟨field_type.source_code_span, "class_keyword"⟩],
    [⟨message_kind.error, "missing name of class", [message_arg.field "class_keyword"]⟩]⟩,
  ⟨"error_missing_name_of_exported_class", "E081",
    [⟨field_type.source_code_span, "class_keyword"⟩],
    [⟨message_kind.error, "missing name of exported class", [message_arg.field "class_keyword"]⟩]⟩]

/-- Entries 101-120 of the `QLJS_X_ERROR_TYPES` table of error.h, in
declaration order (the table is split into segments of twenty entries only to
keep elaboration fast; their concatenation below is the whole table). -/
def QLJS_X_ERROR_TYPES_6 : List error_type := [
  ⟨"error_missing_name_of_exported_function", "E079",
    [⟨field_type.source_code_span, "function_keyword"⟩],
    [⟨message_kind.error, "missing name of exported function", [message_arg.field "function_keyword"]⟩]⟩,
  ⟨"error_missing_name_or_parentheses_for_function", "E062",
    [⟨field_type.source_code_span, "where"⟩, ⟨field_type.source_code_span, "function"⟩],
    [⟨message_kind.error, "missing name or parentheses for function", [message_arg.field "where"]⟩]⟩,
  ⟨"error_missing_operand_for_operator", "E026",
    [⟨field_type.source_code_span, "where"⟩],
    [⟨message_kind.error, "missing operand for operator", [message_arg.field "where"]⟩]⟩,
  ⟨"error_missing_operator_between_expression_and_arrow_function", "E063",
    [⟨field_type.source_code_span, "where"⟩],
    [⟨message_kind.error, "missing operator between expression and arrow function", [message_arg.field "where"]⟩]⟩,
  ⟨"error_missing_property_name_for_dot_operator", "E142",
    [⟨field_type.source_code_span, "dot"⟩],
    [⟨message_kind.error, "missing property name after \x27.\x27 operator", [message_arg.field "dot"]⟩]⟩,
  ⟨"error_missing_semicolon_after_statement", "E027",
    [⟨field_type.source_code_span, "where"⟩],
    [⟨message_kind.error, "missing semicolon after statement", [message_arg.field "where"]⟩]⟩,
  ⟨"error_missing_semicolon_between_for_loop_condition_and_update", "E100",
    [⟨field_type.source_code_span, "expected_semicolon"⟩],
    [⟨message_kind.error, "missing semicolon between condition and update parts of for loop", [message_arg.field "expected_semicolon"]⟩]⟩,
  ⟨"error_missing_semicolon_between_for_loop_init_and_condition", "E099",
    [⟨field_type.source_code_span, "expected_semicolon"⟩],
    [⟨message_kind.error, "missing semicolon between init and condition parts of for loop", [message_arg.field "expected_semicolon"]⟩]⟩,
  ⟨"error_missing_token_after_export", "E113",
    [⟨field_type.source_code_span, "export_token"⟩],
    [⟨message_kind.error, "incomplete export; expected \x27export default ...\x27 or \x27export \x7b\x7bname\x7d\x27 or \x27export * from ...\x27 or \x27export class\x27 or \x27export function\x27 or \x27export let\x27", [message_arg.field "export_token"]⟩]⟩,
  ⟨"error_missing_value_for_object_literal_entry", "E083",
    [⟨field_type.source_code_span, "key"⟩],
    [⟨message_kind.error, "missing value for object property", [message_arg.field "key"]⟩]⟩,
  ⟨"error_missing_variable_name_in_declaration", "E123",
    [⟨field_type.source_code_span, "equal_token"⟩],
    [⟨message_kind.error, "missing variable name", [message_arg.field "equal_token"]⟩]⟩,
  ⟨"error_missing_while_and_condition_for_do_while_statement", "E103",
    [⟨field_type.source_code_span, "do_token"⟩, ⟨field_type.source_code_span, "expected_while"⟩],
    [⟨message_kind.error, "missing \x27while (condition)\x27 for do-while statement", [message_arg.field "expected_while"]⟩,
     ⟨message_kind.note, "do-while statement starts here", [message_arg.field "do_token"]⟩]⟩,
  ⟨"error_number_literal_contains_consecutive_underscores", "E028",
    [⟨field_type.source_code_span, "underscores"⟩],
    [⟨message_kind.error, "number literal contains consecutive underscores", [message_arg.field "underscores"]⟩]⟩,
  ⟨"error_number_literal_contains_trailing_underscores", "E029",
    [⟨field_type.source_code_span, "underscores"⟩],
    [⟨message_kind.error, "number literal contains trailing underscore(s)", [message_arg.field "underscores"]⟩]⟩,
  ⟨"error_octal_literal_may_not_have_exponent", "E030",
    [⟨field_type.source_code_span, "characters"⟩],
    [⟨message_kind.error, "octal literal may not have exponent", [message_arg.field "characters"]⟩]⟩,
  ⟨"error_octal_literal_may_not_have_decimal", "E031",
    [⟨field_type.source_code_span, "characters"⟩],
    [⟨message_kind.error, "octal literal may not have decimal", [message_arg.field "characters"]⟩]⟩,
  ⟨"error_private_properties_are_not_allowed_in_object_literals", "E156",
    [⟨field_type.identifier, "private_identifier"⟩],
    [⟨message_kind.error, "private properties are not allowed in object literals", [message_arg.field "private_identifier"]⟩]⟩,
  ⟨"error_redeclaration_of_global_variable", "E033",
    [⟨field_type.identifier, "redeclaration"⟩],
    [⟨message_kind.error, "redeclaration of global variable", [message_arg.field "redeclaration"]⟩]⟩,
  ⟨"error_redeclaration_of_variable", "E034",
    [⟨field_type.identifier, "redeclaration"⟩, ⟨field_type.identifier, "original_declaration"⟩],
    [⟨message_kind.error, "redeclaration of variable: \x7b0\x7d", [message_arg.field "redeclaration"]⟩,
     ⟨message_kind.note, "variable already declared here", [message_arg.field "original_declaration"]⟩]⟩,
  ⟨"error_regexp_literal_flags_cannot_contain_unicode_escapes", "E035",
    [⟨field_type.source_code_span, "escape_sequence"⟩],
    [⟨message_kind.error, "RegExp literal cannot contain Unicode escapes", [message_arg.field "escape_sequence"]⟩]⟩]

/-- Entries 121-140 of the `QLJS_X_ERROR_TYPES` table of error.h, in
declaration order (the table is split into segments of twenty entries only to
keep elaboration fast; their concatenation below is the whole table). -/
def QLJS_X_ERROR_TYPES_7 : List error_type := [
  ⟨"error_stray_comma_in_let_statement", "E036",
    [⟨field_type.source_code_span, "where"⟩],
    [⟨message_kind.error, "stray comma in let statement", [message_arg.field "where"]⟩]⟩,
  ⟨"error_typescript_enum_not_implemented", "E127",
    [⟨field_type.source_code_span, "enum_keyword"⟩],
    [⟨message_kind.error, "TypeScript\x27s \x27enum\x27 feature is not yet implemented by quick-lint-js", [message_arg.field "enum_keyword"]⟩]⟩,
  ⟨"error_unclosed_block_comment", "E037",
    [⟨field_type.source_code_span, "comment_open"⟩],
    [⟨message_kind.error, "unclosed block comment", [message_arg.field "comment_open"]⟩]⟩,
  ⟨"error_unclosed_code_block", "E134",
    [⟨field_type.source_code_span, "block_open"⟩],
    [⟨message_kind.error, "unclosed code block; expected \x27\x7d\x27 by end of file", [message_arg.field "block_open"]⟩]⟩,
  ⟨"error_unclosed_identifier_escape_sequence", "E038",
    [⟨field_type.source_code_span, "escape_sequence"⟩],
    [⟨message_kind.error, "unclosed identifier escape sequence", [message_arg.field "escape_sequence"]⟩]⟩,
  ⟨"error_unclosed_object_literal", "E161",
    [⟨field_type.source_code_span, "object_open"⟩, ⟨field_type.source_code_span, "expected_object_close"⟩],
    [⟨message_kind.error, "unclosed object literal; expected \x27\x7d\x27", [message_arg.field "expected_object_close"]⟩,
     ⟨message_kind.note, "object literal started here", [message_arg.field "object_open"]⟩]⟩,
  ⟨"error_unclosed_regexp_literal", "E039",
    [⟨field_type.source_code_span, "regexp_literal"⟩],
    [⟨message_kind.error, "unclosed regexp literal", [message_arg.field "regexp_literal"]⟩]⟩,
  ⟨"error_unclosed_string_literal", "E040",
    [⟨field_type.source_code_span, "string_literal"⟩],
    [⟨message_kind.error, "unclosed string literal", [message_arg.field "string_literal"]⟩]⟩,
  ⟨"error_unclosed_template", "E041",
    [⟨field_type.source_code_span, "incomplete_template"⟩],
    [⟨message_kind.error, "unclosed template", [message_arg.field "incomplete_template"]⟩]⟩,
  ⟨"error_unexpected_at_character", "E042",
    [⟨field_type.source_code_span, "character"⟩],
    [⟨message_kind.error, "unexpected \x27@\x27", [message_arg.field "character"]⟩]⟩,
  ⟨"error_unexpected_arrow_after_expression", "E160",
    [⟨field_type.source_code_span, "arrow"⟩, ⟨field_type.source_code_span, "expression"⟩],
    [⟨message_kind.error, "unexpected \x27\x7b0\x7d\x27", [message_arg.field "arrow"]⟩,
     ⟨message_kind.note, "expected parameter for arrow function, but got an expression instead", [message_arg.field "expression"]⟩]⟩,
  ⟨"error_unexpected_arrow_after_literal", "E158",
    [⟨field_type.source_code_span, "arrow"⟩, ⟨field_type.source_code_span, "literal_parameter"⟩],
    [⟨message_kind.error, "unexpected \x27\x7b0\x7d\x27", [message_arg.field "arrow"]⟩,
     ⟨message_kind.note, "expected parameter for arrow function, but got a literal instead", [message_arg.field "literal_parameter"]⟩]⟩,
  ⟨"error_unexpected_backslash_in_identifier", "E043",
    [⟨field_type.source_code_span, "backslash"⟩],
    [⟨message_kind.error, "unexpected \x27\\\x27 in identifier", [message_arg.field "backslash"]⟩]⟩,
  ⟨"error_unexpected_case_outside_switch_statement", "E115",
    [⟨field_type.source_code_span, "case_token"⟩],
    [⟨message_kind.error, "unexpected \x27case\x27 outside switch statement", [message_arg.field "case_token"]⟩]⟩,
  ⟨"error_unexpected_characters_in_number", "E044",
    [⟨field_type.source_code_span, "characters"⟩],
    [⟨message_kind.error, "unexpected characters in number literal", [message_arg.field "characters"]⟩]⟩,
  ⟨"error_unexpected_control_character", "E045",
    [⟨field_type.source_code_span, "character"⟩],
    [⟨message_kind.error, "unexpected control character", [message_arg.field "character"]⟩]⟩,
  ⟨"error_unexpected_characters_in_binary_number", "E046",
    [⟨field_type.source_code_span, "characters"⟩],
    [⟨message_kind.error, "unexpected characters in binary literal", [message_arg.field "characters"]⟩]⟩,
  ⟨"error_unexpected_characters_in_octal_number", "E047",
    [⟨field_type.source_code_span, "characters"⟩],
    [⟨message_kind.error, "unexpected characters in octal literal", [message_arg.field "characters"]⟩]⟩,
  ⟨"error_unexpected_characters_in_hex_number", "E048",
    [⟨field_type.source_code_span, "characters"⟩],
    [⟨message_kind.error, "unexpected characters in hex literal", [message_arg.field "characters"]⟩]⟩,
  ⟨"error_unexpected_default_outside_switch_statement", "E116",
    [⟨field_type.source_code_span, "default_token"⟩],
    [⟨message_kind.error, "unexpected \x27default\x27 outside switch statement", [message_arg.field "default_token"]⟩]⟩]

/-- Entries 141-160 of the `QLJS_X_ERROR_TYPES` table of error.h, in
declaration order (the table is split into segments of twenty entries only to
keep elaboration fast; their concatenation below is the whole table). -/
def QLJS_X_ERROR_TYPES_8 : List error_type := [
  ⟨"error_unexpected_literal_in_parameter_list", "E159",
    [⟨field_type.source_code_span, "literal"⟩],
    [⟨message_kind.error, "unexpected literal in parameter list; expected parameter name", [message_arg.field "literal"]⟩]⟩,
  ⟨"error_unexpected_semicolon_in_c_style_for_loop", "E102",
    [⟨field_type.source_code_span, "semicolon"⟩],
    [⟨message_kind.error, "C-style for loops have only three semicolon-separated components", [message_arg.field "semicolon"]⟩]⟩,
  ⟨"error_unexpected_semicolon_in_for_in_loop", "E110",
    [⟨field_type.source_code_span, "semicolon"⟩],
    [⟨message_kind.error, "for-in loop expression cannot have semicolons", [message_arg.field "semicolon"]⟩]⟩,
  ⟨"error_unexpected_semicolon_in_for_of_loop", "E109",
    [⟨field_type.source_code_span, "semicolon"⟩],
    [⟨message_kind.error, "for-of loop expression cannot have semicolons", [message_arg.field "semicolon"]⟩]⟩,
  ⟨"error_no_digits_in_binary_number", "E049",
    [⟨field_type.source_code_span, "characters"⟩],
    [⟨message_kind.error, "binary number literal has no digits", [message_arg.field "characters"]⟩]⟩,
  ⟨"error_no_digits_in_hex_number", "E050",
    [⟨field_type.source_code_span, "characters"⟩],
    [⟨message_kind.error, "hex number literal has no digits", [message_arg.field "characters"]⟩]⟩,
  ⟨"error_no_digits_in_octal_number", "E051",
    [⟨field_type.source_code_span, "characters"⟩],
    [⟨message_kind.error, "octal number literal has no digits", [message_arg.field "characters"]⟩]⟩,
  ⟨"error_unexpected_hash_character", "E052",
    [⟨field_type.source_code_span, "where"⟩],
    [⟨message_kind.error, "unexpected \x27#\x27", [message_arg.field "where"]⟩]⟩,
  ⟨"error_unexpected_identifier", "E053",
    [⟨field_type.source_code_span, "where"⟩],
    [⟨message_kind.error, "unexpected identifier", [message_arg.field "where"]⟩]⟩,
  ⟨"error_unexpected_identifier_in_expression", "E147",
    [⟨field_type.identifier, "unexpected"⟩],
    [⟨message_kind.error, "unexpected identifier in expression; missing operator before", [message_arg.field "unexpected"]⟩]⟩,
  ⟨"error_unexpected_token", "E054",
    [⟨field_type.source_code_span, "token"⟩],
    [⟨message_kind.error, "unexpected token", [message_arg.field "token"]⟩]⟩,
  ⟨"error_unexpected_token_after_export", "E112",
    [⟨field_type.source_code_span, "unexpected_token"⟩],
    [⟨message_kind.error, "unexpected token in export; expected \x27export default ...\x27 or \x27export \x7b\x7bname\x7d\x27 or \x27export * from ...\x27 or \x27export class\x27 or \x27export function\x27 or \x27export let\x27", [message_arg.field "unexpected_token"]⟩]⟩,
  ⟨"error_unexpected_token_in_variable_declaration", "E114",
    [⟨field_type.source_code_span, "unexpected_token"⟩],
    [⟨message_kind.error, "unexpected token in variable declaration; expected variable name", [message_arg.field "unexpected_token"]⟩]⟩,
  ⟨"error_unmatched_indexing_bracket", "E055",
    [⟨field_type.source_code_span, "left_square"⟩],
    [⟨message_kind.error, "unmatched indexing bracket", [message_arg.field "left_square"]⟩]⟩,
  ⟨"error_unmatched_parenthesis", "E056",
    [⟨field_type.source_code_span, "where"⟩],
    [⟨message_kind.error, "unmatched parenthesis", [message_arg.field "where"]⟩]⟩,
  ⟨"error_unmatched_right_curly", "E143",
    [⟨field_type.source_code_span, "right_curly"⟩],
    [⟨message_kind.error, "unmatched \x27\x7d\x27", [message_arg.field "right_curly"]⟩]⟩,
  ⟨"error_use_of_undeclared_variable", "E057",
    [⟨field_type.identifier, "name"⟩],
    [⟨message_kind.warning, "use of undeclared variable: \x7b0\x7d", [message_arg.field "name"]⟩]⟩,
  ⟨"error_variable_used_before_declaration", "E058",
    [⟨field_type.identifier, "use"⟩, ⟨field_type.identifier, "declaration"⟩],
    [⟨message_kind.error, "variable used before declaration: \x7b0\x7d", [message_arg.field "use"]⟩,
     ⟨message_kind.note, "variable declared here", [message_arg.field "declaration"]⟩]⟩,
  ⟨"error_invalid_break", "E200",
    [⟨field_type.source_code_span, "break_statement"⟩],
    [⟨message_kind.error, "break can only be used inside of a loop or switch", [message_arg.field "break_statement"]⟩]⟩,
  ⟨"error_invalid_continue", "E201",
    [⟨field_type.source_code_span, "continue_statement"⟩],
    [⟨message_kind.error, "continue can only be used inside of a loop", [message_arg.field "continue_statement"]⟩]⟩]

/-- The `QLJS_X_ERROR_TYPES` table of error.h: every diagnostic kind of the
taxonomy, in declaration order. -/
def QLJS_X_ERROR_TYPES : List error_type :=
  QLJS_X_ERROR_TYPES_1 ++ QLJS_X_ERROR_TYPES_2 ++ QLJS_X_ERROR_TYPES_3 ++ QLJS_X_ERROR_TYPES_4 ++ QLJS_X_ERROR_TYPES_5 ++ QLJS_X_ERROR_TYPES_6 ++ QLJS_X_ERROR_TYPES_7 ++ QLJS_X_ERROR_TYPES_8


/-- A start/end byte-offset range into the analyzed source text
(`source_code_span`, location.h; outside this subsystem, modelled from the
spec: a span carries its begin and end byte offsets). -/
structure source_code_span where
  begin_offset : Nat
  end_offset : Nat
deriving DecidableEq

/-- A source-code span denoting a name together with the textual value of
that name (`identifier`, lex.h; outside this subsystem, modelled from the
spec). -/
structure identifier where
  span : source_code_span
  text : String
deriving DecidableEq

/-- The value stored in one field of a diagnostic value, one case per
`field_type`.  The two enums (`statement_kind`, `variable_kind`, language.h)
are outside this subsystem and are modelled opaquely by an enumerator
index. -/
inductive field_value
  | span (s : source_code_span)
  | ident (i : identifier)
  | character (c : Char)
  | statement_kind_value (k : Nat)
  | variable_kind_value (k : Nat)
deriving DecidableEq

/-- A diagnostic value: a value of one diagnostic kind together with its
field values in declaration order.  Once built it is a pure fact, only
consumed. -/
structure diagnostic where
  type : error_type
  values : List field_value
deriving DecidableEq

/-- `null_error_reporter` (error.h): the discarding reporter.  The C++ class
declares no data members, so its state is empty. -/
structure null_error_reporter where
deriving DecidableEq

/-- `null_error_reporter`/error.h: `void report(name) override {}` for every
kind of the taxonomy.  A report call returns the reporter state and the list
of diagnostics it emits to any sink; the discarding reporter leaves its state
unchanged and emits nothing. -/
def null_error_reporter.report (self : null_error_reporter)
    (_diag : diagnostic) : null_error_reporter × List diagnostic :=
  (self, [])

/-- The names of the declared fields of a kind, in declaration order. -/
def error_type.field_names (e : error_type) : List String :=
  e.fields.map field_decl.name

/-- The declared fields a message argument references. -/
def message_arg.referenced_fields : message_arg → List String
  | message_arg.field n => [n]
  | message_arg.span_between a b => [a, b]
  | message_arg.char_view n => [n]

/-- Whether a message comes from a `.note(...)` call. -/
def diagnostic_message.is_note (m : diagnostic_message) : Bool :=
  match m.kind with
  | message_kind.note => true
  | _ => false

/-- Whether a message is the primary message (`.error(...)` or
`.warning(...)`). -/
def diagnostic_message.is_primary (m : diagnostic_message) : Bool :=
  match m.kind with
  | message_kind.error => true
  | message_kind.warning => true
  | message_kind.note => false

/-- The note messages of the format chain of a kind, in order. -/
def error_type.notes (e : error_type) : List diagnostic_message :=
  e.format.filter diagnostic_message.is_note

/-- The number of notes a kind declares. -/
def error_type.note_count (e : error_type) : Nat :=
  e.notes.length

/-- One output of the formatting service: whether it is a note, and the
declared fields its interpolated arguments draw from. -/
structure formatted_message where
  is_note : Bool
  arg_fields : List String
deriving DecidableEq

/-- Modelled from the spec: the message-formatting service is external to
this subsystem; it walks the format chain of a kind and emits one formatted
message per builder call — a primary for `.error`/`.warning`, a note for
`.note` — interpolating the arguments of that call positionally. -/
def error_type.formatted (e : error_type) : List formatted_message :=
  e.format.map fun m =>
    ⟨m.is_note, m.args.foldr (fun a acc => a.referenced_fields ++ acc) []⟩

/-- The template checks of a diagnostic kind: the format chain declares
exactly one primary message and it comes first; every argument of every
message references only fields declared on the kind (a primary may reference
them through a derived span or one-byte view); every note references declared
fields directly; and formatting yields exactly the declared number of
notes. -/
def error_type.template_ok (e : error_type) : Bool :=
  ((e.format.filter diagnostic_message.is_primary).length == 1) &&
  (match e.format with
   | [] => false
   | m :: _ => m.is_primary) &&
  e.format.all (fun m =>
    m.args.all fun a =>
      a.referenced_fields.all fun n => e.field_names.contains n) &&
  e.notes.all (fun m =>
    m.args.all fun a =>
      match a with
      | message_arg.field n => e.field_names.contains n
      | _ => false) &&
  ((e.formatted.filter formatted_message.is_note).length == e.note_count)


/-! ## Behaviour of one loop iteration -/

/-- With the completion flag already set, `run` performs nothing. -/
theorem run_done (reads : List file_read_result) :
    run true reads = ⟨[], run_outcome.finished, true, reads⟩ := by
  cases reads <;> rfl

/-- With no queued read result, the loop blocks. -/
theorem run_nil : run false [] = ⟨[], run_outcome.blocked, false, []⟩ := rfl

/-- A read reporting end-of-stream sets the flag and ends the loop, with no
wait. -/
theorem run_cons_eof (err : Option read_errno) (d : String)
    (rest : List file_read_result) :
    run false (⟨true, err, d⟩ :: rest) =
      ⟨[event.read], run_outcome.finished, true, rest⟩ := rfl

/-- A retryable `EAGAIN` read adds only a readiness wait and continues. -/
theorem run_cons_eagain (d : String) (rest : List file_read_result) :
    run false (⟨false, some read_errno.eagain, d⟩ :: rest) =
      ⟨event.read :: event.wait :: (run false rest).trace,
        (run false rest).outcome, (run false rest).done_,
        (run false rest).rest⟩ := rfl

/-- A read failing with any error other than `EAGAIN` aborts the process via
`QLJS_UNIMPLEMENTED()`; nothing after it is consumed. -/
theorem run_cons_fatal (d : String) (rest : List file_read_result) :
    run false (⟨false, some read_errno.other, d⟩ :: rest) =
      ⟨[event.read, event.fatal], run_outcome.fatal_error, false, rest⟩ := rfl

/-- A successful zero-byte read that is not end-of-stream fails
`QLJS_ASSERT(read_result.bytes_read != 0)`. -/
theorem run_cons_empty (rest : List file_read_result) :
    run false (⟨false, none, ""⟩ :: rest) =
      ⟨[event.read, event.assert_failed], run_outcome.assertion_failed, false,
        rest⟩ := rfl

/-- A successful non-empty read appends its chunk and then waits before the
next read. -/
theorem run_cons_data (d : String) (rest : List file_read_result)
    (hd : d ≠ "") :
    run false (⟨false, none, d⟩ :: rest) =
      ⟨event.read :: event.append d :: event.wait :: (run false rest).trace,
        (run false rest).outcome, (run false rest).done_,
        (run false rest).rest⟩ := by
  simp [run, read_from_pipe, hd]


/-! ## Characterisation of termination -/

/-- A sequence headed by an end-of-stream read stops at end-of-stream. -/
theorem stops_at_eof_cons_eof (r : file_read_result)
    (rest : List file_read_result) (heof : r.at_end_of_file = true) :
    stops_at_eof (r :: rest) :=
  ⟨[], r, rest, rfl, heof, by simp⟩

/-- Prepending a read that makes progress does not change whether the
sequence stops at end-of-stream. -/
theorem stops_at_eof_cons (r : file_read_result)
    (rest : List file_read_result) (hm : makes_progress r = true) :
    stops_at_eof (r :: rest) ↔ stops_at_eof rest := by
  constructor
  · rintro ⟨pre, r0, post, heq, heof, hpre⟩
    cases pre with
    | nil =>
      simp only [List.nil_append, List.cons.injEq] at heq
      obtain ⟨rfl, rfl⟩ := heq
      rw [makes_progress, heof] at hm
      simp at hm
    | cons p pre =>
      simp only [List.cons_append, List.cons.injEq] at heq
      obtain ⟨rfl, heq⟩ := heq
      exact ⟨pre, r0, post, heq, heof,
        fun x hx => hpre x (List.mem_cons_of_mem _ hx)⟩
  · rintro ⟨pre, r0, post, heq, heof, hpre⟩
    refine ⟨r :: pre, r0, post, by simp [heq], heof, ?_⟩
    intro x hx
    rcases List.mem_cons.mp hx with rfl | hx
    · exact hm
    · exact hpre x hx

/-- A sequence headed by a read that neither makes progress nor reports
end-of-stream never stops at end-of-stream. -/
theorem stops_at_eof_cons_stuck (r : file_read_result)
    (rest : List file_read_result) (heof : r.at_end_of_file = false)
    (hm : makes_progress r = false) :
    ¬ stops_at_eof (r :: rest) := by
  rintro ⟨pre, r0, post, heq, heof0, hpre⟩
  cases pre with
  | nil =>
    simp only [List.nil_append, List.cons.injEq] at heq
    obtain ⟨rfl, rfl⟩ := heq
    rw [heof] at heof0
    exact Bool.noConfusion heof0
  | cons p pre =>
    simp only [List.cons_append, List.cons.injEq] at heq
    obtain ⟨rfl, -⟩ := heq
    have h := hpre r (List.mem_cons_self _ _)
    rw [hm] at h
    exact Bool.noConfusion h

/-- `run()` on a fresh loop returns normally exactly when the read sequence
reports end-of-stream after reads that all make progress. -/
theorem run_finished_iff (reads : List file_read_result) :
    (run false reads).outcome = run_outcome.finished ↔ stops_at_eof reads := by
  induction reads with
  | nil =>
    rw [run_nil]
    constructor
    · intro h
      exact run_outcome.noConfusion h
    · rintro ⟨pre, r, post, heq, -, -⟩
      exact absurd heq (by simp)
  | cons r rest ih =>
    obtain ⟨eof, err, d⟩ := r
    cases eof with
    | true =>
      rw [run_cons_eof]
      exact iff_of_true rfl (stops_at_eof_cons_eof _ _ rfl)
    | false =>
      rcases err with - | e
      · by_cases hd : d = ""
        · subst hd
          rw [run_cons_empty]
          refine iff_of_false (fun h => run_outcome.noConfusion h) ?_
          exact stops_at_eof_cons_stuck _ _ rfl (by simp [makes_progress])
        · rw [run_cons_data d rest hd,
            stops_at_eof_cons _ _ (by simp [makes_progress, hd])]
          exact ih
      · cases e with
        | eagain =>
          rw [run_cons_eagain,
            stops_at_eof_cons _ _ (by simp [makes_progress])]
          exact ih
        | other =>
          rw [run_cons_fatal]
          refine iff_of_false (fun h => run_outcome.noConfusion h) ?_
          exact stops_at_eof_cons_stuck _ _ rfl (by simp [makes_progress])


/-! ## Characterisation of a fatal read error -/

/-- If `run()` aborts through `QLJS_UNIMPLEMENTED()`, the read sequence
splits as progressing reads, then a read failing with an error other than
`EAGAIN`; the reads after the failing one are never consumed and the fatal
abort is the final event of the trace, so nothing is delivered to the
delegate after the failure. -/
theorem run_fatal_char (reads : List file_read_result) :
    (run false reads).outcome = run_outcome.fatal_error →
    ∃ pre r post, reads = pre ++ r :: post ∧ r.at_end_of_file = false ∧
      r.error_message = some read_errno.other ∧
      (∀ x ∈ pre, makes_progress x = true) ∧
      (run false reads).rest = post ∧
      ∃ t, (run false reads).trace = t ++ [event.fatal] := by
  induction reads with
  | nil =>
    intro h
    rw [run_nil] at h
    exact run_outcome.noConfusion h
  | cons r rest ih =>
    obtain ⟨eof, err, d⟩ := r
    cases eof with
    | true =>
      intro h
      rw [run_cons_eof] at h
      exact run_outcome.noConfusion h
    | false =>
      rcases err with - | e
      · by_cases hd : d = ""
        · subst hd
          intro h
          rw [run_cons_empty] at h
          exact run_outcome.noConfusion h
        · intro h
          rw [run_cons_data d rest hd] at h
          obtain ⟨pre, r0, post, heq, h1, h2, hpre, hrest, t, htr⟩ := ih h
          refine ⟨⟨false, none, d⟩ :: pre, r0, post, by simp [heq], h1, h2,
            ?_, ?_, event.read :: event.append d :: event.wait :: t, ?_⟩
          · intro x hx
            rcases List.mem_cons.mp hx with rfl | hx
            · simp [makes_progress, hd]
            · exact hpre x hx
          · rw [run_cons_data d rest hd]
            exact hrest
          · rw [run_cons_data d rest hd]
            show event.read :: event.append d :: event.wait ::
              (run false rest).trace = _
            rw [htr]
            rfl
      · cases e with
        | eagain =>
          intro h
          rw [run_cons_eagain] at h
          obtain ⟨pre, r0, post, heq, h1, h2, hpre, hrest, t, htr⟩ := ih h
          refine ⟨⟨false, some read_errno.eagain, d⟩ :: pre, r0, post,
            by simp [heq], h1, h2, ?_, ?_,
            event.read :: event.wait :: t, ?_⟩
          · intro x hx
            rcases List.mem_cons.mp hx with rfl | hx
            · simp [makes_progress]
            · exact hpre x hx
          · rw [run_cons_eagain]
            exact hrest
          · rw [run_cons_eagain]
            show event.read :: event.wait :: (run false rest).trace = _
            rw [htr]
            rfl
        | other =>
          intro _h
          refine ⟨[], ⟨false, some read_errno.other, d⟩, rest, rfl, rfl, rfl,
            by simp, ?_, [event.read], ?_⟩
          · rw [run_cons_fatal]
          · rw [run_cons_fatal]
            rfl

/-! ## Delivery of chunks -/

/-- `event.read` delivers nothing. -/
theorem appended_chunks_cons_read (tr : List event) :
    appended_chunks (event.read :: tr) = appended_chunks tr := rfl

/-- `event.wait` delivers nothing. -/
theorem appended_chunks_cons_wait (tr : List event) :
    appended_chunks (event.wait :: tr) = appended_chunks tr := rfl

/-- `event.append s` delivers exactly `s`. -/
theorem appended_chunks_cons_append (s : String) (tr : List event) :
    appended_chunks (event.append s :: tr) = s :: appended_chunks tr := rfl

/-- An `EAGAIN` read carries no chunk. -/
theorem chunks_cons_eagain (d : String) (l : List file_read_result) :
    chunks (⟨false, some read_errno.eagain, d⟩ :: l) = chunks l := rfl

/-- A successful non-empty read carries its chunk. -/
theorem chunks_cons_data (d : String) (l : List file_read_result)
    (hd : d ≠ "") :
    chunks (⟨false, none, d⟩ :: l) = d :: chunks l := by
  simp [chunks, hd]

/-- Running a fresh loop on progressing reads followed by end-of-stream
delivers exactly the chunks of those reads, verbatim and in order, and
returns normally. -/
theorem run_progress_append_eof (pre : List file_read_result)
    (h : ∀ x ∈ pre, makes_progress x = true) :
    appended_chunks (run false (pre ++ [eof_read])).trace = chunks pre ∧
    (run false (pre ++ [eof_read])).outcome = run_outcome.finished := by
  induction pre with
  | nil => exact ⟨rfl, rfl⟩
  | cons r pre ih =>
    have hr := h r (List.mem_cons_self _ _)
    obtain ⟨hrec1, hrec2⟩ := ih fun x hx => h x (List.mem_cons_of_mem _ hx)
    obtain ⟨eof, err, d⟩ := r
    cases eof with
    | true =>
      rw [makes_progress] at hr
      simp at hr
    | false =>
      rcases err with - | e
      · by_cases hd : d = ""
        · subst hd
          rw [makes_progress] at hr
          simp at hr
        · rw [List.cons_append, run_cons_data d (pre ++ [eof_read]) hd]
          constructor
          · show appended_chunks (event.read :: event.append d :: event.wait ::
              (run false (pre ++ [eof_read])).trace) =
                chunks (⟨false, none, d⟩ :: pre)
            rw [appended_chunks_cons_read, appended_chunks_cons_append,
              appended_chunks_cons_wait, hrec1, chunks_cons_data d pre hd]
          · exact hrec2
      · cases e with
        | eagain =>
          rw [List.cons_append, run_cons_eagain d (pre ++ [eof_read])]
          constructor
          · show appended_chunks (event.read :: event.wait ::
              (run false (pre ++ [eof_read])).trace) =
                chunks (⟨false, some read_errno.eagain, d⟩ :: pre)
            rw [appended_chunks_cons_read, appended_chunks_cons_wait, hrec1,
              chunks_cons_eagain]
          · exact hrec2
        | other =>
          rw [makes_progress] at hr
          simp at hr


/-! ## The claims -/

set_option maxRecDepth 10000

/-- C1: for every sequence of reads produced by the byte-stream resource,
`run()` returns exactly when a read reports end-of-stream (a fresh loop
returns normally iff the queued reads report end-of-stream after reads that
all make progress); in particular, for a byte source that immediately signals
end-of-stream with zero bytes ever produced, `run()` returns having called
the append operation of the delegate zero times. -/
theorem event_loop_run_returns_exactly_on_eof :
    (∀ reads, (run false reads).outcome = run_outcome.finished ↔
      stops_at_eof reads) ∧
    (run false [eof_read]).outcome = run_outcome.finished ∧
    appended_chunks (run false [eof_read]).trace = [] :=
  ⟨run_finished_iff, rfl, rfl⟩

/-- C2, counterexample: on the source emitting "ab", then an empty chunk,
then "cd", then end-of-stream, the loop does not skip the empty read and
return normally with exactly "ab" then "cd" delivered, as the claim states;
instead `QLJS_ASSERT(read_result.bytes_read != 0)` fails on the empty read:
the run aborts after delivering only "ab". -/
theorem event_loop_empty_read_not_skipped :
    ¬ ((run false [data_read "ab", data_read "", data_read "cd",
          eof_read]).outcome = run_outcome.finished ∧
       appended_chunks (run false [data_read "ab", data_read "", data_read "cd",
          eof_read]).trace = ["ab", "cd"]) ∧
    (run false [data_read "ab", data_read "", data_read "cd", eof_read]).outcome
        = run_outcome.assertion_failed ∧
    appended_chunks (run false [data_read "ab", data_read "", data_read "cd",
        eof_read]).trace = ["ab"] := by
  refine ⟨fun h => ?_, rfl, rfl⟩
  have : run_outcome.assertion_failed = run_outcome.finished := h.1
  exact run_outcome.noConfusion this

/-- C2, amended: for every sequence of reads ending in end-of-stream in which
every read makes progress (is retryable or yields a non-empty chunk), the
append operation of the delegate receives exactly the non-empty chunks that
were read, each verbatim, in the exact byte order they were read, with no
reordering or coalescing across calls, and `run()` then returns; a successful
zero-byte read is not skipped — the loop asserts it never occurs
(`QLJS_ASSERT(read_result.bytes_read != 0)`) and a failed assertion aborts
the process. -/
theorem event_loop_delivers_chunks_in_order (pre : List file_read_result)
    (h : ∀ x ∈ pre, makes_progress x = true) :
    appended_chunks (run false (pre ++ [eof_read])).trace = chunks pre ∧
    (run false (pre ++ [eof_read])).outcome = run_outcome.finished :=
  run_progress_append_eof pre h

/-- Witness for C2 amended: the source emitting "ab" then "cd" then
end-of-stream delivers exactly ["ab", "cd"] and returns. -/
theorem event_loop_delivers_chunks_in_order_witness :
    appended_chunks (run false ([data_read "ab", data_read "cd"] ++
        [eof_read])).trace = chunks [data_read "ab", data_read "cd"] ∧
    (run false ([data_read "ab", data_read "cd"] ++ [eof_read])).outcome
        = run_outcome.finished :=
  event_loop_delivers_chunks_in_order [data_read "ab", data_read "cd"]
    (by decide)

/-- C3: a read that reports the retryable `EAGAIN` condition is never treated
as fatal and is invisible to the delegate: it adds exactly one readiness wait
to the trace and changes nothing else; in particular, on a source raising the
retryable condition twice before yielding "x" then end-of-stream, `run()`
terminates normally and the delegate receives "x" exactly once. -/
theorem event_loop_retries_invisible :
    (∀ reads, run false (eagain_read :: reads) =
      ⟨event.read :: event.wait :: (run false reads).trace,
        (run false reads).outcome, (run false reads).done_,
        (run false reads).rest⟩) ∧
    (run false [eagain_read, eagain_read, data_read "x", eof_read]).outcome
        = run_outcome.finished ∧
    appended_chunks (run false [eagain_read, eagain_read, data_read "x",
        eof_read]).trace = ["x"] :=
  ⟨fun reads => run_cons_eagain "" reads, rfl, rfl⟩

/-- C4: across all diagnostic kinds of the taxonomy (every `QLJS_ERROR_TYPE`
entry), the short code is unique: no two distinct kinds carry the same code
string. -/
theorem error_codes_unique :
    (QLJS_X_ERROR_TYPES.map error_type.code).Nodup := by decide

/-- C5, counterexample: after a read returns the non-empty chunk "ab" and the
loop forwards it, the loop does not go directly back to the next read; the
trace shows a readiness wait (`poll` with infinite timeout) between the
forwarded chunk and the next read. -/
theorem event_loop_wait_follows_append_cex :
    (run false [data_read "ab", eof_read]).trace =
      [event.read, event.append "ab", event.wait, event.read] ∧
    event.wait ∈ (run false [data_read "ab", eof_read]).trace := by
  exact ⟨rfl, by decide⟩

/-- C5, amended: whenever a read returns a non-empty chunk, the loop forwards
it to the chunk-accept operation of the delegate and then performs exactly
one readiness wait before the next read attempt (the wait in step 4 of the
loop body runs after every non-terminating iteration, including one that
forwarded a chunk). -/
theorem event_loop_append_then_wait (d : String)
    (rest : List file_read_result) (hd : d ≠ "") :
    run false (data_read d :: rest) =
      ⟨event.read :: event.append d :: event.wait :: (run false rest).trace,
        (run false rest).outcome, (run false rest).done_,
        (run false rest).rest⟩ :=
  run_cons_data d rest hd

/-- Witness for C5 amended: forwarding "ab" is followed by one wait, then the
next read. -/
theorem event_loop_append_then_wait_witness :
    run false (data_read "ab" :: [eof_read]) =
      ⟨event.read :: event.append "ab" :: event.wait ::
          (run false [eof_read]).trace,
        (run false [eof_read]).outcome, (run false [eof_read]).done_,
        (run false [eof_read]).rest⟩ :=
  event_loop_append_then_wait "ab" [eof_read] (by decide)

/-- C6: the state machine of the loop has exactly two states, carried by the
boolean member `done_`: RUNNING (`false`, initial) and DONE (`true`,
terminal).  One `read_from_pipe` call leaves the flag at `done_ ||
at_end_of_file`: it turns `true` only upon a read observing end-of-stream and
is never cleared once set; and end-of-stream is the only way the loop stops
normally. -/
theorem event_loop_two_state_machine :
    (∀ (done_ : Bool) (r : file_read_result),
      (read_from_pipe done_ r).done_ = (done_ || r.at_end_of_file)) ∧
    (∀ reads, (run false reads).outcome = run_outcome.finished ↔
      stops_at_eof reads) := by
  refine ⟨fun done_ r => ?_, run_finished_iff⟩
  obtain ⟨eof, err, d⟩ := r
  cases eof with
  | true => simp [read_from_pipe]
  | false =>
    rcases err with - | e
    · by_cases hd : d = "" <;> simp [read_from_pipe, hd]
    · cases e <;> simp [read_from_pipe]

/-- C7: the no-op (discarding) reporter accepts every diagnostic kind (its
`report` is total over all diagnostic values of every kind) and does nothing:
reporting leaves the empty reporter state unchanged and emits nothing to any
sink, so calling `report` twice with the same diagnostic value produces no
observable difference from calling it once, and calling it once no difference
from calling it zero times. -/
theorem null_reporter_noop (self : null_error_reporter) (d : diagnostic) :
    self.report d = (self, []) ∧
    (self.report d).1.report d = self.report d :=
  ⟨rfl, rfl⟩

/-- C8: any read failure that is neither end-of-stream nor retryable is fatal
for the whole process: the loop performs no recovery and no further
operation — the failing read is preceded only by progressing reads, the reads
after it are never consumed, and the fatal abort is the final event of the
trace, so no chunk is ever delivered to the delegate after the failure. -/
theorem event_loop_fatal_error_is_final (reads : List file_read_result)
    (h : (run false reads).outcome = run_outcome.fatal_error) :
    ∃ pre r post, reads = pre ++ r :: post ∧ r.at_end_of_file = false ∧
      r.error_message = some read_errno.other ∧
      (∀ x ∈ pre, makes_progress x = true) ∧
      (run false reads).rest = post ∧
      ∃ t, (run false reads).trace = t ++ [event.fatal] :=
  run_fatal_char reads h

/-- Witness for C8: a single failing read. -/
theorem event_loop_fatal_error_is_final_witness :
    ∃ pre r post, [fatal_read] = pre ++ r :: post ∧
      r.at_end_of_file = false ∧
      r.error_message = some read_errno.other ∧
      (∀ x ∈ pre, makes_progress x = true) ∧
      (run false [fatal_read]).rest = post ∧
      ∃ t, (run false [fatal_read]).trace = t ++ [event.fatal] :=
  event_loop_fatal_error_is_final [fatal_read] rfl

/-- C9: every diagnostic kind of the taxonomy declares exactly one primary
message (which comes first) plus zero or more notes; every argument of every
message references only fields declared on the kind (notes reference them
directly, a primary possibly through a derived span or one-byte view); and
formatting a kind yields exactly the declared number of notes. -/
theorem error_templates_well_formed :
    QLJS_X_ERROR_TYPES.all error_type.template_ok = true := by decide

/-- C10: on a loop instance whose completion flag is already set, `run()`
returns immediately as a no-op: it performs no read, no readiness wait and no
append (empty trace), consumes nothing from the pipe, and leaves the flag
set. -/
theorem event_loop_run_noop_when_done (reads : List file_read_result) :
    run true reads = ⟨[], run_outcome.finished, true, reads⟩ :=
  run_done reads

end quick_lint_js
